import Mathlib

/-!
Verification of the `l2o` meta-training orchestration core against its
specification.  The Python source is shallowly embedded: tensors are flat
lists of exact rationals, TF variables are explicit state records, and
stateful step functions become pure state-passing functions.  External
collaborators (the learned-optimizer network, the problem objective and its
gradients, the teacher optimizers, TF primitives such as `clip_by_norm` and
`log`) are opaque function parameters, exactly as they are opaque to the
orchestration code.
-/

namespace L2O

/-! ## Cross-replica reduction (`l2o/train/step_mixins.py`)

`StepMixin._summarize` reduces the per-replica `meta_loss` and
`imitation_loss` values with `tf.distribute.ReduceOp.MEAN`.  We embed the
TF reduce primitive with both reduction ops so that the choice made by the
source is visible in the embedding. -/

inductive ReduceOp
  | MEAN
  | SUM
deriving DecidableEq

/-- `tf.distribute`'s reduce over the per-replica values of a tensor. -/
def distributeReduce : ReduceOp → List ℚ → ℚ
  | ReduceOp.MEAN, xs => xs.sum / xs.length
  | ReduceOp.SUM, xs => xs.sum

/-- The summary dictionary built by `StepMixin._summarize`
(callback-produced keys are external collaborators and are not modelled). -/
structure Summary where
  meta_loss : ℚ
  imitation_loss : ℚ
deriving DecidableEq, Repr

/-- `StepMixin._summarize`: aggregates per-replica losses with
`distribute.reduce(tf.distribute.ReduceOp.MEAN, ..., axis=None)`. -/
def summarize_losses (meta_loss imitation_loss : List ℚ) : Summary :=
  { meta_loss := distributeReduce ReduceOp.MEAN meta_loss
    imitation_loss := distributeReduce ReduceOp.MEAN imitation_loss }

/-! ## Adversarial perturbations (`l2o/policies/perturbations.py`)

Perturbation variables are flattened to one rational per scalar entry;
all the TF operations involved (`assign`, `assign_add`, `sign`,
`zeros_like`, `clip_by_value`) act elementwise, so the flattened view is
faithful. -/

/-- `tf.math.sign` on rationals. -/
def signQ (x : ℚ) : ℚ := if 0 < x then 1 else if x < 0 then -1 else 0

/-- `FGSMPerturbation`: perturbation variables plus FGSM step size. -/
structure FGSMPerturbation where
  step_size : ℚ
  vars : List ℚ
deriving DecidableEq, Repr

/-- `FGSMPerturbation.reset`: `v.assign(tf.zeros_like(v))` for every
perturbation variable. -/
def FGSMPerturbation.reset (p : FGSMPerturbation) : FGSMPerturbation :=
  { p with vars := p.vars.map (fun _ => 0) }

/-- `FGSMPerturbation.apply_gradients`:
`param.assign_add(tf.math.sign(grad) * self.step_size)` over the zipped
(param, grad) pairs. -/
def FGSMPerturbation.apply_gradients (p : FGSMPerturbation) (grads : List ℚ) :
    FGSMPerturbation :=
  { p with vars := (p.vars.zip grads).map (fun vg => vg.1 + signQ vg.2 * p.step_size) }

/-- Observation points of one execution of
`StepMixin.abstract_train_step._inner`: the perturbation variables at the
start of the adversarial sub-loop, at the moment the gradients w.r.t. the
network's trainable weights are taken, and at the end of the step, plus the
final network weights. -/
structure InnerStepTrace where
  ptb_at_subloop_start : List ℚ
  ptb_at_weight_grad : List ℚ
  weights_final : List ℚ
  ptb_final : List ℚ
deriving DecidableEq, Repr

/-- `StepMixin.abstract_train_step._inner` on one replica, with the
differentiation oracles opaque: `ptbGrad` is the gradient of the loss
w.r.t. the perturbable variables as a function of their current values
(`GradientTape` watching `ptb.perturbable_variables`); `weightGrad` is the
gradient w.r.t. the network's trainable variables given the active
perturbation; `clip` embeds `self.gradient_clipping.clip` and `applyGrads`
embeds `self.optimizer.apply_gradients`.  The statement order is exactly
the source's: `ptb.reset()`; the `adversarial_attack_steps` sub-loop of
gradient computations and `ptb.apply_gradients`; the weight-gradient tape;
clipping; the outer update; the final `ptb.reset()`. -/
def abstract_train_step_inner (attackSteps : ℕ) (ptbGrad : List ℚ → List ℚ)
    (weightGrad : List ℚ → List ℚ → List ℚ)
    (clip : List ℚ → List ℚ → List ℚ) (applyGrads : List ℚ → List ℚ → List ℚ)
    (weights0 : List ℚ) (ptb0 : FGSMPerturbation) : InnerStepTrace :=
  let p0 := ptb0.reset
  let p1 := (fun p => FGSMPerturbation.apply_gradients p (ptbGrad p.vars))^[attackSteps] p0
  let grads := weightGrad weights0 p1.vars
  let clipped := clip weights0 grads
  let weights1 := applyGrads weights0 clipped
  let p2 := p1.reset
  { ptb_at_subloop_start := p0.vars
    ptb_at_weight_grad := p1.vars
    weights_final := weights1
    ptb_final := p2.vars }

/-- `tf.clip_by_value` applied elementwise. -/
def clip_by_value (t : List ℚ) (lo hi : ℚ) : List ℚ :=
  t.map (fun x => min (max x lo) hi)

/-- `PGDPerturbation` configuration fields. -/
structure PGDPerturbation where
  steps : ℕ
  magnitude : ℚ
  norm : String
  learning_rate : ℚ

/-- `PGDPerturbation.apply_gradients`.  `tf.clip_by_norm` involves a square
root, so it is an opaque primitive parameter `clipByNorm`; the norm-string
dispatch, the gradient-ascent update `param + grad * learning_rate`, the
`tf.size` scaling of the `scale` branch and the `inf` branch are embedded
exactly.  When the norm string matches no branch the `if`/`elif` chain
falls through and `param.assign` is never called, so the parameter is
returned unchanged. -/
def PGDPerturbation.apply_gradients (p : PGDPerturbation)
    (clipByNorm : List ℚ → ℚ → List ℚ)
    (params_and_grads : List (List ℚ × List ℚ)) : List (List ℚ) :=
  params_and_grads.map (fun pg =>
    let param := pg.1
    let grad := pg.2
    let param_new := (param.zip grad).map (fun xg => xg.1 + xg.2 * p.learning_rate)
    if p.norm = "l2" then clipByNorm param_new p.magnitude
    else if p.norm = "scale" then clipByNorm param_new (p.magnitude * param.length)
    else if p.norm = "inf" then clip_by_value param_new (-p.magnitude) p.magnitude
    else param)

/-! ## Imitation loss (`l2o/optimizer/imitation_mixins.py`)

`ImitationLossMixin.imitation_loss` steps the learner and the teachers for
`unroll` iterations and accumulates a weighted distance loss.  A variable
(tensor) is a flat list of rationals; `unroll_state.params` is the
learner's list of variables, and `problem.trainable_variables` is a list
of cloned variable sets, one per teacher, each parallel to `params`.  The
learner's gradient step (`GradientTape` on `problem.objective` followed by
`self._train_apply_gradients`) and each teacher's `minimize` are opaque
collaborators: they are step functions from variable sets to variable
sets, allowed to depend on the inner-step index (the per-step data batch
when `is_batched`). -/

/-- A problem variable: a flattened tensor. -/
abbrev Var := List ℚ

/-- A variable set: one variable per trainable variable group. -/
abbrev VarSet := List Var

/-- `tf.nn.l2_loss`: half the sum of squared entries (no square root). -/
def l2_loss (t : List ℚ) : ℚ := (t.map (fun x => x * x)).sum / 2

/-- Elementwise tensor difference `svar - tvar`. -/
def sub_var (a b : Var) : Var := (a.zip b).map (fun xy => xy.1 - xy.2)

/-- The squared L2 distance between two variables, `sum((a - b) ** 2)`,
written from the specification's words for comparison with the source's
`tf.nn.l2_loss`. -/
def sq_l2_dist (a b : Var) : ℚ := ((a.zip b).map (fun xy => (xy.1 - xy.2) * (xy.1 - xy.2))).sum

/-- The source's per-teacher loss:
`tf.add_n([tf.nn.l2_loss(svar - tvar) for svar, tvar in zip(unroll_state.params, var_set)])`. -/
def teacher_distance (params var_set : VarSet) : ℚ :=
  ((params.zip var_set).map (fun sv => l2_loss (sub_var sv.1 sv.2))).sum

/-- `tf.math.reduce_mean` over a list. -/
def reduce_mean (xs : List ℚ) : ℚ := xs.sum / xs.length

/-- `tf.math.reduce_max` over a list. -/
def reduce_max : List ℚ → ℚ
  | [] => 0
  | x :: xs => xs.foldl max x

/-- The bound collaborators of one `imitation_loss` call: the learner's
inner gradient step, the teachers' `minimize` steps, the multi-teacher
reduction `strategy`, the `use_log_objective` flag and the (opaque,
transcendental) `tf.math.log`. -/
structure ImitationConfig where
  learnerStep : ℕ → VarSet → VarSet
  teachers : List (ℕ → VarSet → VarSet)
  strategy : List ℚ → ℚ
  use_log_objective : Bool
  log : ℚ → ℚ

/-- The mutable state of one `imitation_loss` call: the learner's
`unroll_state.params` and the teachers' cloned `problem.trainable_variables`. -/
structure ImitState where
  params : VarSet
  teacherVars : List VarSet

/-- `for teacher, var_set in zip(teachers, problem.trainable_variables):
teacher.minimize(...)`: only the zipped prefix is stepped; variable sets
beyond the number of teachers are left untouched (and teachers beyond the
number of variable sets do nothing). -/
def updateTeachers (steps : List (ℕ → VarSet → VarSet)) (i : ℕ)
    (tvs : List VarSet) : List VarSet :=
  ((steps.zip tvs).map (fun p => p.1 i p.2)) ++ tvs.drop steps.length

/-- One iteration of the `imitation_loss` unroll loop, state part: run the
learner, then run the teachers. -/
def imitationStepState (cfg : ImitationConfig) (i : ℕ) (st : ImitState) : ImitState :=
  { params := cfg.learnerStep i st.params
    teacherVars := updateTeachers cfg.teachers i st.teacherVars }

/-- One iteration of the `imitation_loss` unroll loop, loss part: the
`strategy` reduction over the per-teacher distances at the post-step state,
log-transformed when `use_log_objective`. -/
def imitationStepLoss (cfg : ImitationConfig) (st : ImitState) : ℚ :=
  let d := cfg.strategy (st.teacherVars.map (fun vs => teacher_distance st.params vs))
  if cfg.use_log_objective then cfg.log d else d

/-- The state reached after `n` iterations of the unroll loop. -/
def unrollStateAt (cfg : ImitationConfig) (st : ImitState) : ℕ → ImitState
  | 0 => st
  | n + 1 => imitationStepState cfg n (unrollStateAt cfg st n)

/-- `ImitationLossMixin.imitation_loss`: `loss = 0.`, then for
`i in tf.range(unroll)` run the learner, run the teachers, form the
per-step distance `d_loss` and accumulate `loss += weights[i] * d_loss`;
returns the accumulated loss and the final state.  There is no check
relating the number of teachers to the number of variable groups anywhere
in the function. -/
def imitation_loss (cfg : ImitationConfig) (weights : List ℚ) (unroll : ℕ)
    (st : ImitState) : ℚ × ImitState :=
  (List.range unroll).foldl
    (fun acc i =>
      let st' := imitationStepState cfg i acc.2
      (acc.1 + weights.getD i 0 * imitationStepLoss cfg st', st'))
    (0, st)

/-! ## Progress ledger lookup (`l2o/train/strategies/strategy.py`)

`BaseStrategy` keeps its summary ledger as a pandas dataframe appended to
by `_append` with `ignore_index=True`, so rows sit in chronological append
order (oldest first).  A row is a list of named rational columns. -/

/-- A ledger row: named columns with rational values. -/
abbrev Row := List (String × ℚ)

/-- Reading a named column of a row. -/
def rowGet (r : Row) (k : String) : Option ℚ :=
  (r.find? (fun p => p.1 == k)).map Prod.snd

/-- One boolean-mask conjunct `filtered[filtered[k] == v]`. -/
def columnMatches (k : String) (v : ℚ) (r : Row) : Bool := rowGet r k == some v

/-- The exact-match predicate over named columns induced by the keyword
arguments of `_filter` / `_lookup`. -/
def matchesPred (pred : List (String × ℚ)) (r : Row) : Bool :=
  pred.all (fun kv => columnMatches kv.1 kv.2 r)

/-- `BaseStrategy._filter`: chains one pandas boolean-mask filter
`filtered = filtered[filtered[k] == v]` per keyword argument, preserving
row order.  (The `except IndexError` handler in the source is dead for
boolean-mask filtering, which returns an empty frame rather than raising,
so `_filter` never returns `None` on this path.) -/
def strategy_filter (summary : List Row) (pred : List (String × ℚ)) : List Row :=
  pred.foldl (fun acc kv => acc.filter (columnMatches kv.1 kv.2)) summary

/-- Errors raised by pandas positional indexing. -/
inductive PandasError
  | indexError
deriving DecidableEq, Repr

/-- `BaseStrategy._lookup`: `_filter` returns a (possibly empty) frame,
never `None`, so the `is not None` test always passes and `_lookup`
returns `filtered.iloc[0]` — the first row of the filtered frame in append
order — which raises `IndexError` when no row matched. -/
def strategy_lookup (summary : List Row) (pred : List (String × ℚ)) :
    Except PandasError Row :=
  match strategy_filter summary pred with
  | [] => Except.error PandasError.indexError
  | r :: _ => Except.ok r

/-- The specification's lookup contract, written from the spec's words for
comparison: the most recent matching row, or absent if none match. -/
def lookup_spec (summary : List Row) (pred : List (String × ℚ)) : Option Row :=
  (summary.filter (matchesPred pred)).getLast?

/-! ## Learning period (`l2o/train/strategies/strategy.py`) -/

/-- `np.mean` of a list of rationals. -/
def np_mean (xs : List ℚ) : ℚ := xs.sum / xs.length

/-- The `TrainingPeriod` named tuple. -/
structure TrainingPeriod where
  training_loss_mean : ℚ
  training_loss : List ℚ
  validation_loss : ℚ
deriving DecidableEq, Repr

/-- The observable actions of `_learning_period`, in execution order. -/
inductive PeriodEvent
  | trainEpoch (i : ℕ)
  | validationPass
deriving DecidableEq, Repr

/-- `BaseStrategy._learning_period`: for `i in range(epochs_per_period)`
run one training epoch — `np.mean` of the losses that
`self._run_training_loop` returns for epoch `i` is appended to
`training_loss` — then compute `training_loss_mean = np.mean(training_loss)`
and run one validation pass whose losses are likewise averaged.  The
training loops are opaque collaborators (`trainRun i` is the loss list of
epoch `i`, `validRun` that of the validation pass); alongside the
`TrainingPeriod` we return the ordered trace of actions the source
executes. -/
def learning_period (epochs_per_period : ℕ) (trainRun : ℕ → List ℚ)
    (validRun : List ℚ) : TrainingPeriod × List PeriodEvent :=
  let training_loss := (List.range epochs_per_period).map (fun i => np_mean (trainRun i))
  ({ training_loss_mean := np_mean training_loss
     training_loss := training_loss
     validation_loss := np_mean validRun },
   (List.range epochs_per_period).map PeriodEvent.trainEpoch ++
     [PeriodEvent.validationPass])

/-! ## Validation step (`l2o/train/step_mixins.py`) -/

/-- The mutable state a training step owns: the learned optimizer's
trainable weights and the perturbation variables. -/
structure ExecState where
  weights : List ℚ
  ptb : FGSMPerturbation
deriving DecidableEq, Repr

/-- `StepMixin.abstract_valid_step`: `distribute.run` evaluates
`self.abstract_loss(data_, states_, scale_, **kwargs)` on each replica's
data — no `GradientTape`, no `optimizer.apply_gradients`, no touch of
`self.network.perturbation` — and `_summarize` reduces the per-replica
meta and imitation losses.  `abstractLoss` is the same bound loss
computation the training step evaluates (opaque collaborator), a pure
function of the replica's data and the current execution state. -/
def abstract_valid_step {α : Type} (abstractLoss : α → ExecState → ℚ × ℚ)
    (replicas : List α) (st : ExecState) : ExecState × Summary :=
  (st, summarize_losses (replicas.map (fun d => (abstractLoss d st).1))
        (replicas.map (fun d => (abstractLoss d st).2)))

/-! ## Strategy construction (`l2o/train/strategies/strategy.py`)

`BaseStrategy.__init__` creates the working directory, then reads
`summary.csv`: on success it resumes, on `FileNotFoundError` it builds a
fresh summary frame and calls the subclass hook `_start()`.  The concrete
strategies supplying `_start` (`SimpleStrategy`,
`CurriculumLearningStrategy`, `RepeatStrategy`) are not among the sources
at hand, so `_start`'s directory check is modelled from the spec. -/

/-- The working directory as strategy construction observes it. -/
structure WorkDir where
  dirExists : Bool
  nonEmpty : Bool
  hasLedger : Bool
  producedByThisStrategy : Bool
deriving DecidableEq, Repr

/-- The construction-time error of §7 of the specification; `_makedir`'s
`raise Exception("Directory already exists; please rename or delete")` is
the source's realization of it. -/
inductive StrategyError
  | directoryConflictError
deriving DecidableEq, Repr

/-- `_makedir(path, assert_empty)`: raises when the directory already
exists and `assert_empty` is set, creates the directory when missing. -/
def makedir (d : WorkDir) (assert_empty : Bool) : Except StrategyError WorkDir :=
  if d.dirExists then
    if assert_empty then Except.error StrategyError.directoryConflictError
    else Except.ok d
  else Except.ok { d with dirExists := true }

/-- Modelled from the spec: the `_start` hook of the concrete strategies is
missing from the sources at hand; per §4.4/§7 a fresh start fails with
`DirectoryConflictError` when the working directory is non-empty and was
not itself produced by this strategy. -/
def strategy_start (d : WorkDir) : Except StrategyError Unit :=
  if d.nonEmpty && !d.producedByThisStrategy then
    Except.error StrategyError.directoryConflictError
  else Except.ok ()

/-- `BaseStrategy.__init__` directory handling: `_makedir(self.directory)`
without `assert_empty`, then the `summary.csv` read — resume when it
exists, otherwise the fresh-start path through `_start`; errors
propagate. -/
def strategy_init (d : WorkDir) : Except StrategyError WorkDir :=
  match makedir d false with
  | Except.error e => Except.error e
  | Except.ok d' =>
    if d'.hasLedger then Except.ok d'
    else
      match strategy_start d' with
      | Except.error e => Except.error e
      | Except.ok _ => Except.ok d'

end L2O

/-- A list of zeros (as produced by a perturbation reset) passes the
all-entries-zero check. -/
lemma L2O.all_zero_of_map_const_zero (l : List ℚ) :
    (l.map (fun _ => (0 : ℚ))).all (fun x => x == 0) = true := by
  simp [List.all_eq_true]

/-- C1: for every step summarized across replicas, the reported `meta_loss`
and `imitation_loss` are the arithmetic mean of the per-replica losses (sum
divided by replica count), not their sum; in particular with two replicas
reporting meta losses 2.0 and 4.0 the summary reports `meta_loss = 3.0`. -/
theorem C1_summarize_is_mean :
    (∀ m i : List ℚ,
      (L2O.summarize_losses m i).meta_loss = m.sum / m.length ∧
      (L2O.summarize_losses m i).imitation_loss = i.sum / i.length) ∧
    (L2O.summarize_losses [2, 4] [0, 0]).meta_loss = 3 := by
  refine ⟨fun m i => ⟨rfl, rfl⟩, ?_⟩
  norm_num [L2O.summarize_losses, L2O.distributeReduce]

/-- C2 counterexample: with one FGSM attack step (`adversarial_attack_steps
= 1`, step size 1/100) and a perturbation-gradient oracle returning 1, the
perturbation variable holds the adversarial offset 1/100 — not zero — at
the moment the weight gradients are computed: the reset happens before the
perturbation sub-loop, not between the sub-loop and the weight-gradient
computation. -/
theorem C2_counterexample :
    (L2O.abstract_train_step_inner 1 (fun _ => [1]) (fun _ _ => [0])
      (fun _ g => g) (fun w _ => w) [0]
      { step_size := 1/100, vars := [5] }).ptb_at_weight_grad = [1/100] ∧
    ((1 : ℚ)/100) ≠ 0 := by
  constructor
  · norm_num [L2O.abstract_train_step_inner, L2O.FGSMPerturbation.reset,
      L2O.FGSMPerturbation.apply_gradients, L2O.signQ, Function.iterate_one]
  · norm_num

/-- C2 (amended): in every execution of the training step the perturbation
variables are fully reset to zero before the adversarial perturbation
sub-loop begins, and fully reset to zero again after the outer weight
update is applied; at the weight-gradient computation itself they hold the
adversarial perturbation produced by the sub-loop. -/
theorem C2_reset_before_subloop_and_after_update
    (attackSteps : ℕ) (ptbGrad : List ℚ → List ℚ)
    (weightGrad : List ℚ → List ℚ → List ℚ)
    (clip applyGrads : List ℚ → List ℚ → List ℚ)
    (weights0 : List ℚ) (ptb0 : L2O.FGSMPerturbation) :
    (L2O.abstract_train_step_inner attackSteps ptbGrad weightGrad clip
        applyGrads weights0 ptb0).ptb_at_subloop_start.all (fun x => x == 0) = true ∧
    (L2O.abstract_train_step_inner attackSteps ptbGrad weightGrad clip
        applyGrads weights0 ptb0).ptb_final.all (fun x => x == 0) = true := by
  constructor
  · exact L2O.all_zero_of_map_const_zero ptb0.vars
  · exact L2O.all_zero_of_map_const_zero _

/-- C10: for every norm string other than "l2", "scale" and "inf",
`PGDPerturbation.apply_gradients` returns every parameter unchanged (and,
being total, raises no error): a misspelled norm silently disables the
projected-gradient update. -/
theorem C10_unknown_norm_is_noop (p : L2O.PGDPerturbation)
    (clipByNorm : List ℚ → ℚ → List ℚ)
    (params_and_grads : List (List ℚ × List ℚ))
    (h1 : p.norm ≠ "l2") (h2 : p.norm ≠ "scale") (h3 : p.norm ≠ "inf") :
    p.apply_gradients clipByNorm params_and_grads =
      params_and_grads.map Prod.fst := by
  unfold L2O.PGDPerturbation.apply_gradients
  simp [h1, h2, h3]

/-- C10 witness: the norm string "l1" is none of the three recognized
norms, and `apply_gradients` at that configuration returns the parameter
list unchanged. -/
theorem C10_unknown_norm_is_noop_witness :
    L2O.PGDPerturbation.apply_gradients
        { steps := 1, magnitude := 1/100, norm := "l1", learning_rate := 1/200 }
        (fun t _ => t) [([3], [1])] =
      List.map Prod.fst [([3], [1])] :=
  C10_unknown_norm_is_noop
    { steps := 1, magnitude := 1/100, norm := "l1", learning_rate := 1/200 }
    (fun t _ => t) [([3], [1])] (by decide) (by decide) (by decide)

/-- The `imitation_loss` accumulation fold computes, in one pass, the
weighted sum of the per-step losses in increasing step order together with
the final unroll state. -/
lemma L2O.imitation_loss_eq (cfg : L2O.ImitationConfig) (w : List ℚ)
    (st : L2O.ImitState) (L : ℕ) :
    L2O.imitation_loss cfg w L st =
      (((List.range L).map
          (fun i => w.getD i 0 *
            L2O.imitationStepLoss cfg (L2O.unrollStateAt cfg st (i + 1)))).sum,
        L2O.unrollStateAt cfg st L) := by
  induction L with
  | zero => rfl
  | succ n ih =>
    unfold L2O.imitation_loss at ih ⊢
    rw [List.range_succ, List.foldl_append, List.map_append, List.sum_append, ih]
    simp [L2O.unrollStateAt]

/-- C7: for every unroll length and weight vector, the unrolled imitation
loss is exactly the weighted sum of the per-step loss values, with
`weights[i]` applied to step `i` in increasing order of `i` (the sum over
`List.range L` in order), and the returned state is the `L`-fold iterate
of the inner step. -/
theorem C7_loss_is_ordered_weighted_sum (cfg : L2O.ImitationConfig)
    (w : List ℚ) (st : L2O.ImitState) (L : ℕ) :
    (L2O.imitation_loss cfg w L st).1 =
      ((List.range L).map
        (fun i => w.getD i 0 *
          L2O.imitationStepLoss cfg (L2O.unrollStateAt cfg st (i + 1)))).sum := by
  rw [L2O.imitation_loss_eq]

/-- Halving each summand halves the sum. -/
lemma L2O.sum_map_half {α : Type} (l : List α) (f : α → ℚ) :
    (l.map (fun x => f x / 2)).sum = (l.map f).sum / 2 := by
  induction l with
  | nil => simp
  | cons a t ih => simp only [List.map_cons, List.sum_cons, ih]; ring

/-- The source's `tf.nn.l2_loss(svar - tvar)` is half the squared L2
distance between the two variables. -/
lemma L2O.l2_loss_sub_var (x y : L2O.Var) :
    L2O.l2_loss (L2O.sub_var x y) = L2O.sq_l2_dist x y / 2 := by
  unfold L2O.l2_loss L2O.sub_var L2O.sq_l2_dist
  rw [List.map_map]
  rfl

/-- The source's per-teacher loss is half the sum, over variable groups, of
squared L2 distances between learner and teacher parameters. -/
lemma L2O.teacher_distance_eq (a b : L2O.VarSet) :
    L2O.teacher_distance a b =
      (((a.zip b).map (fun sv => L2O.sq_l2_dist sv.1 sv.2)).sum) / 2 := by
  unfold L2O.teacher_distance
  rw [← L2O.sum_map_half]
  congr 1
  apply List.map_congr_left
  intro sv _
  exact L2O.l2_loss_sub_var sv.1 sv.2

/-- A weighted sum whose weight vector is `1 :: replicate m 0` collapses to
its first term. -/
lemma L2O.weighted_sum_first (g : ℕ → ℚ) (m : ℕ) :
    ((List.range (m + 1)).map
      (fun i => (1 :: List.replicate m (0 : ℚ)).getD i 0 * g i)).sum = g 0 := by
  rw [List.range_succ_eq_map, List.map_cons, List.sum_cons, List.map_map]
  have h : (List.range m).map
        ((fun i => (1 :: List.replicate m (0 : ℚ)).getD i 0 * g i) ∘ Nat.succ) =
      (List.range m).map (fun _ => (0 : ℚ)) := by
    apply List.map_congr_left
    intro i _
    simp [Function.comp, List.getD_eq_getD_get?]
  rw [h]
  simp

/-- C3 counterexample: one teacher, one variable group, learner parameter 0
and teacher parameter 4 after the (identity) inner step, weight vector
`[1]`, mean reduction, no log transform.  The imitation loss evaluates to
8, which is neither the sum of squared L2 distances (16) claimed for the
per-teacher loss nor the L2 distance (4) claimed for the single-step value:
`tf.nn.l2_loss` contributes only half the squared distance. -/
theorem C3_counterexample :
    (L2O.imitation_loss
        { learnerStep := fun _ p => p, teachers := [fun _ v => v],
          strategy := L2O.reduce_mean, use_log_objective := false, log := id }
        [1] 1 { params := [[0]], teacherVars := [[[4]]] }).1 = 8 ∧
    L2O.sq_l2_dist [0] [4] = 16 ∧ (8 : ℚ) ≠ 16 ∧ (8 : ℚ) ≠ 4 := by
  refine ⟨?_, by norm_num [L2O.sq_l2_dist], by norm_num, by norm_num⟩
  norm_num [L2O.imitation_loss, L2O.imitationStepState, L2O.imitationStepLoss,
    L2O.updateTeachers, L2O.teacher_distance, L2O.l2_loss, L2O.sub_var,
    L2O.reduce_mean, List.range_succ]

/-- C3 (amended): the per-teacher loss is HALF the sum of squared L2
distances between the learner's parameters and that teacher's parameters
(`tf.nn.l2_loss`, summed over variable groups), combined across teachers
by the caller-supplied reduction and optionally log-transformed before the
per-step weight is applied; consequently, with a single teacher and weight
vector `[1, 0, ..., 0]`, the imitation loss equals HALF the squared
single-step L2 distance between learner and teacher parameters after one
inner step. -/
theorem C3_half_squared_distance (lstep tstep : ℕ → L2O.VarSet → L2O.VarSet)
    (p0 vs : L2O.VarSet) (L : ℕ) (hL : 1 ≤ L) :
    (L2O.imitation_loss
        { learnerStep := lstep, teachers := [tstep],
          strategy := L2O.reduce_mean, use_log_objective := false, log := id }
        (1 :: List.replicate (L - 1) 0) L
        { params := p0, teacherVars := [vs] }).1 =
      (((lstep 0 p0).zip (tstep 0 vs)).map
        (fun sv => L2O.sq_l2_dist sv.1 sv.2)).sum / 2 := by
  obtain ⟨m, rfl⟩ : ∃ m, L = m + 1 := ⟨L - 1, (Nat.succ_pred_eq_of_pos hL).symm⟩
  rw [L2O.imitation_loss_eq]
  show ((List.range (m + 1)).map _).sum = _
  rw [Nat.add_sub_cancel, L2O.weighted_sum_first]
  simp only [L2O.unrollStateAt, L2O.imitationStepState, L2O.imitationStepLoss,
    L2O.updateTeachers]
  simp [L2O.reduce_mean, L2O.teacher_distance_eq]

/-- C3 witness: the amended statement instantiated at one unroll step with
identity learner and teacher steps, learner parameter 0 and teacher
parameter 4; the half-squared-distance evaluates to 8. -/
theorem C3_half_squared_distance_witness :
    1 ≤ 1 ∧
    ((L2O.imitation_loss
        { learnerStep := fun _ p => p, teachers := [fun _ v => v],
          strategy := L2O.reduce_mean, use_log_objective := false, log := id }
        (1 :: List.replicate (1 - 1) 0) 1
        { params := [[0]], teacherVars := [[[4]]] }).1 =
      ((([[(0 : ℚ)]]).zip [[4]]).map
        (fun sv => L2O.sq_l2_dist sv.1 sv.2)).sum / 2) ∧
    ((([[(0 : ℚ)]]).zip [[4]]).map
        (fun sv => L2O.sq_l2_dist sv.1 sv.2)).sum / 2 = 8 := by
  refine ⟨Nat.le_refl 1,
    C3_half_squared_distance (fun _ p => p) (fun _ v => v) [[0]] [[4]] 1
      (Nat.le_refl 1), ?_⟩
  norm_num [L2O.sq_l2_dist]

/-- Stepping the teachers never changes the number of variable groups. -/
lemma L2O.updateTeachers_length (steps : List (ℕ → L2O.VarSet → L2O.VarSet))
    (i : ℕ) (tvs : List L2O.VarSet) :
    (L2O.updateTeachers steps i tvs).length = tvs.length := by
  simp [L2O.updateTeachers]
  omega

/-- Variable groups beyond the zipped `(teacher, var_set)` prefix are left
untouched by the teacher loop. -/
lemma L2O.updateTeachers_getD (steps : List (ℕ → L2O.VarSet → L2O.VarSet))
    (i : ℕ) (tvs : List L2O.VarSet) (j : ℕ) (h : steps.length ≤ j) :
    (L2O.updateTeachers steps i tvs).getD j [] = tvs.getD j [] := by
  unfold L2O.updateTeachers
  rw [List.getD_append_right]
  · rw [List.length_map, List.length_zip]
    rcases Nat.le_total steps.length tvs.length with hle | hge
    · rw [Nat.min_eq_left hle, List.getD_eq_getD_get?, List.getD_eq_getD_get?,
        List.get?_eq_getElem?, List.get?_eq_getElem?, List.getElem?_drop]
      congr 2
      omega
    · rw [Nat.min_eq_right hge, List.drop_eq_nil_of_le hge,
        List.getD_eq_default _ _ (Nat.zero_le _),
        List.getD_eq_default _ _ (le_trans hge h)]
  · rw [List.length_map, List.length_zip]
    omega

/-- C5 counterexample: one teacher but two trainable-variable groups
(learner parameter 0, group parameters 1 and 3).  Building and evaluating
the imitation loss completes normally — there is no count check and no
failure path in `imitation_loss`, so no `TeacherMismatchError` (which does
not exist anywhere in the code) is raised: the `zip` silently truncates,
the teacher steps only the first group, the second group keeps its
variables, and both groups still enter the distance, giving loss
`(1/2 + 9/2) / 2 = 5/2`. -/
theorem C5_counterexample :
    (L2O.imitation_loss
        { learnerStep := fun _ p => p, teachers := [fun _ v => v],
          strategy := L2O.reduce_mean, use_log_objective := false, log := id }
        [1] 1 { params := [[0]], teacherVars := [[[1]], [[3]]] }).1 = 5/2 ∧
    (L2O.imitation_loss
        { learnerStep := fun _ p => p, teachers := [fun _ v => v],
          strategy := L2O.reduce_mean, use_log_objective := false, log := id }
        [1] 1 { params := [[0]], teacherVars := [[[1]], [[3]]] }).2.teacherVars =
      [[[1]], [[3]]] ∧
    ([fun _ v => v] : List (ℕ → L2O.VarSet → L2O.VarSet)).length ≠
      ([[[1]], [[3]]] : List L2O.VarSet).length := by
  refine ⟨?_, ?_, by decide⟩
  · norm_num [L2O.imitation_loss, L2O.imitationStepState, L2O.imitationStepLoss,
      L2O.updateTeachers, L2O.teacher_distance, L2O.l2_loss, L2O.sub_var,
      L2O.reduce_mean, List.range_succ]
  · norm_num [L2O.imitation_loss, L2O.imitationStepState, L2O.updateTeachers,
      List.range_succ]

/-- C5 (amended): `imitation_loss` performs no teacher/variable-group count
check and has no failure path: when the number of teachers differs from the
number of variable groups, the `zip` silently truncates — each inner step
leaves every variable group at an index at or beyond the teacher count
unchanged, while the number of groups (all of which still enter the
distance term) is preserved. -/
theorem C5_no_count_check (cfg : L2O.ImitationConfig) (i : ℕ)
    (st : L2O.ImitState) (j : ℕ) (h : cfg.teachers.length ≤ j) :
    ((L2O.imitationStepState cfg i st).teacherVars).getD j [] =
      st.teacherVars.getD j [] ∧
    (L2O.imitationStepState cfg i st).teacherVars.length =
      st.teacherVars.length := by
  exact ⟨L2O.updateTeachers_getD cfg.teachers i st.teacherVars j h,
    L2O.updateTeachers_length cfg.teachers i st.teacherVars⟩

/-- C5 witness: with one teacher and two variable groups, the second group
(index 1, at the teacher count) is untouched by an inner step and the group
count stays 2. -/
theorem C5_no_count_check_witness :
    (([fun _ v => v] : List (ℕ → L2O.VarSet → L2O.VarSet)).length ≤ 1) ∧
    (((L2O.imitationStepState
        { learnerStep := fun _ p => p, teachers := [fun _ v => v],
          strategy := L2O.reduce_mean, use_log_objective := false, log := id }
        0 { params := [[0]], teacherVars := [[[1]], [[3]]] }).teacherVars).getD 1 [] =
      ([[[1]], [[3]]] : List L2O.VarSet).getD 1 [] ∧
    (L2O.imitationStepState
        { learnerStep := fun _ p => p, teachers := [fun _ v => v],
          strategy := L2O.reduce_mean, use_log_objective := false, log := id }
        0 { params := [[0]], teacherVars := [[[1]], [[3]]] }).teacherVars.length =
      ([[[1]], [[3]]] : List L2O.VarSet).length) :=
  ⟨Nat.le_refl 1,
    C5_no_count_check
      { learnerStep := fun _ p => p, teachers := [fun _ v => v],
        strategy := L2O.reduce_mean, use_log_objective := false, log := id }
      0 { params := [[0]], teacherVars := [[[1]], [[3]]] } 1 (Nat.le_refl 1)⟩

/-- Chaining one boolean-mask filter per predicate conjunct equals a single
filter by the conjunction of all conjuncts. -/
lemma L2O.strategy_filter_eq (summary : List L2O.Row)
    (pred : List (String × ℚ)) :
    L2O.strategy_filter summary pred = summary.filter (L2O.matchesPred pred) := by
  induction pred generalizing summary with
  | nil =>
    simp only [L2O.strategy_filter, List.foldl_nil]
    have h : ∀ l : List L2O.Row, l.filter (L2O.matchesPred []) = l := by
      intro l
      induction l with
      | nil => rfl
      | cons a t ih => simp [List.filter_cons, L2O.matchesPred, ih]
    exact (h summary).symm
  | cons kv t ih =>
    show L2O.strategy_filter (summary.filter (L2O.columnMatches kv.1 kv.2)) t = _
    rw [ih, List.filter_filter]
    apply List.filter_congr
    intro r _
    simp [L2O.matchesPred, Bool.and_comm]

/-- C4 counterexample: a two-row ledger where both rows match the predicate
`stage == 0`.  `_lookup` returns the first-appended (oldest) row, not the
most recent one that the spec-side contract selects; and on the predicate
`stage == 5`, which no row matches, it raises `IndexError` instead of
returning an absent value. -/
theorem C4_counterexample :
    L2O.strategy_lookup [[("stage", 0), ("loss", 1)], [("stage", 0), ("loss", 2)]]
        [("stage", 0)] = Except.ok [("stage", 0), ("loss", 1)] ∧
    L2O.lookup_spec [[("stage", 0), ("loss", 1)], [("stage", 0), ("loss", 2)]]
        [("stage", 0)] = some [("stage", 0), ("loss", 2)] ∧
    ([("stage", 0), ("loss", 1)] : L2O.Row) ≠ [("stage", 0), ("loss", 2)] ∧
    L2O.strategy_lookup [[("stage", 0), ("loss", 1)], [("stage", 0), ("loss", 2)]]
        [("stage", 5)] = Except.error L2O.PandasError.indexError := by
  exact ⟨rfl, rfl, by decide, rfl⟩

/-- C4 (amended): `_lookup` with an exact-match predicate over named
columns returns the EARLIEST (first-appended) matching row, and raises
`IndexError` (rather than returning an absent value) when no row
matches. -/
theorem C4_lookup_first_match_or_index_error (summary : List L2O.Row)
    (pred : List (String × ℚ)) :
    L2O.strategy_lookup summary pred =
      match (summary.filter (L2O.matchesPred pred)).head? with
      | none => Except.error L2O.PandasError.indexError
      | some r => Except.ok r := by
  unfold L2O.strategy_lookup
  rw [L2O.strategy_filter_eq]
  cases summary.filter (L2O.matchesPred pred) <;> rfl

/-- C8: every call to `_learning_period` executes exactly
`epochs_per_period` training epochs, in order, followed by exactly one
validation pass; the returned `training_loss` sequence has length
`epochs_per_period` with entry `i` the loss of epoch `i`; and
`training_loss_mean` is the arithmetic mean (sum over length) of that
sequence. -/
theorem C8_learning_period_contract (n : ℕ) (trainRun : ℕ → List ℚ)
    (validRun : List ℚ) :
    (L2O.learning_period n trainRun validRun).2 =
      (List.range n).map L2O.PeriodEvent.trainEpoch ++
        [L2O.PeriodEvent.validationPass] ∧
    (L2O.learning_period n trainRun validRun).1.training_loss.length = n ∧
    (∀ i, i < n →
      (L2O.learning_period n trainRun validRun).1.training_loss.getD i 0 =
        L2O.np_mean (trainRun i)) ∧
    (L2O.learning_period n trainRun validRun).1.training_loss_mean =
      (L2O.learning_period n trainRun validRun).1.training_loss.sum /
        ((L2O.learning_period n trainRun validRun).1.training_loss.length : ℚ) := by
  refine ⟨rfl, by simp [L2O.learning_period], ?_, rfl⟩
  intro i hi
  have hlen : i < ((List.range n).map (fun j => L2O.np_mean (trainRun j))).length := by
    simp [hi]
  show ((List.range n).map (fun j => L2O.np_mean (trainRun j))).getD i 0 = _
  rw [List.getD_eq_getElem _ _ hlen, List.getElem_map]
  simp

/-- C8 witness: two epochs with per-epoch losses `[1, 3]` (epoch mean 2);
the recorded loss of epoch 1 is the epoch's mean. -/
theorem C8_learning_period_contract_witness :
    1 < 2 ∧
    (L2O.learning_period 2 (fun _ => [1, 3]) [5]).1.training_loss.getD 1 0 =
      L2O.np_mean [(1 : ℚ), 3] :=
  ⟨by decide,
   (C8_learning_period_contract 2 (fun _ => [1, 3]) [5]).2.2.1 1 (by decide)⟩

/-- C9: the validation step leaves the learned optimizer's trainable
weights and the perturbation variables untouched (it computes no
gradients, applies no update, runs no perturbation sub-loop) and its
summary is exactly the mean-reduced per-replica values of the same bound
`abstract_loss` computation the training step evaluates, at the unchanged
state. -/
theorem C9_valid_step_is_pure_loss {α : Type}
    (abstractLoss : α → L2O.ExecState → ℚ × ℚ) (replicas : List α)
    (st : L2O.ExecState) :
    (L2O.abstract_valid_step abstractLoss replicas st).1.weights = st.weights ∧
    (L2O.abstract_valid_step abstractLoss replicas st).1.ptb = st.ptb ∧
    (L2O.abstract_valid_step abstractLoss replicas st).2.meta_loss =
      L2O.distributeReduce L2O.ReduceOp.MEAN
        (replicas.map (fun d => (abstractLoss d st).1)) ∧
    (L2O.abstract_valid_step abstractLoss replicas st).2.imitation_loss =
      L2O.distributeReduce L2O.ReduceOp.MEAN
        (replicas.map (fun d => (abstractLoss d st).2)) :=
  ⟨rfl, rfl, rfl, rfl⟩

/-- C6: asked to start fresh (no ledger to resume) in a non-empty working
directory that this strategy did not produce, construction fails with
`DirectoryConflictError` instead of silently adopting the directory. -/
theorem C6_fresh_start_conflict (d : L2O.WorkDir) (h1 : d.hasLedger = false)
    (h2 : d.nonEmpty = true) (h3 : d.producedByThisStrategy = false) :
    L2O.strategy_init d =
      Except.error L2O.StrategyError.directoryConflictError := by
  unfold L2O.strategy_init L2O.makedir L2O.strategy_start
  cases hd : d.dirExists <;> simp [h1, h2, h3, hd]

/-- C6 witness: a concrete existing, non-empty, ledger-less directory not
produced by this strategy makes construction fail. -/
theorem C6_fresh_start_conflict_witness :
    (({ dirExists := true, nonEmpty := true, hasLedger := false,
        producedByThisStrategy := false } : L2O.WorkDir).hasLedger = false) ∧
    L2O.strategy_init
        { dirExists := true, nonEmpty := true, hasLedger := false,
          producedByThisStrategy := false } =
      Except.error L2O.StrategyError.directoryConflictError :=
  ⟨rfl, C6_fresh_start_conflict
    { dirExists := true, nonEmpty := true, hasLedger := false,
      producedByThisStrategy := false } rfl rfl rfl⟩
